import Mathlib

/-!
Verification of the exercise repetition counter in
`src/frontend/components/LiveDetection.tsx` (class `ExerciseDetectionService`
and the `EXERCISES` catalog), shallowly embedded in Lean.

JavaScript numbers that may be `NaN` are modelled as `Option ℝ` with `none`
standing for `NaN`; every comparison against `NaN` is false, exactly as in
JavaScript. Angles and coordinates are modelled as real numbers.
-/

noncomputable section

namespace HealthyWorld

open Real Classical

/-- A pose landmark's 2D position, as consumed by `calculateAngle`
(`landmarks[p].x`, `landmarks[p].y`). -/
structure Landmark where
  x : ℝ
  y : ℝ

/-- The `targetAngles` record of an exercise: `start` (extended threshold)
and `end` (contracted threshold). -/
structure TargetAngles where
  start : ℝ
  «end» : ℝ

/-- The `Exercise` type of `LiveDetection.tsx`. -/
structure Exercise where
  id : String
  name : String
  description : String
  targetAngles : TargetAngles
  joints : ℕ × ℕ × ℕ

/-- First entry of `EXERCISES`. -/
def bicepCurl : Exercise :=
  { id := "bicep-curl"
    name := "Bicep Curl"
    description := "Curl your arm upward, keeping your upper arm still."
    targetAngles := { start := 160, «end» := 60 }
    joints := (11, 13, 15) }

/-- Second entry of `EXERCISES`. -/
def squat : Exercise :=
  { id := "squat"
    name := "Squat"
    description := "Lower your body by bending your knees, keeping your back straight."
    targetAngles := { start := 170, «end» := 90 }
    joints := (24, 26, 28) }

/-- Third entry of `EXERCISES`. -/
def pushup : Exercise :=
  { id := "pushup"
    name := "Push-up"
    description := "Lower your body by bending your elbows, keeping your body straight."
    targetAngles := { start := 160, «end» := 90 }
    joints := (12, 14, 16) }

/-- The static exercise catalog `EXERCISES`. -/
def EXERCISES : List Exercise := [bicepCurl, squat, pushup]

instance : Inhabited Exercise := ⟨bicepCurl⟩

/-- JavaScript `a <= b` where `a` may be `NaN` (`none`): any comparison with
`NaN` is false. -/
def jsLe (a : Option ℝ) (b : ℝ) : Prop :=
  match a with
  | none => False
  | some x => x ≤ b

/-- JavaScript `a >= b` where `a` may be `NaN` (`none`): any comparison with
`NaN` is false. -/
def jsGe (a : Option ℝ) (b : ℝ) : Prop :=
  match a with
  | none => False
  | some x => b ≤ x

/-- The mutable fields of the `ExerciseDetectionService` class.
`poseLandmarker` records whether the landmarker is non-null (initialized);
`drawingUtils` is omitted because it only affects rendering. -/
structure ExerciseDetectionService where
  poseLandmarker : Bool
  lastVideoTime : ℝ
  repCount : ℕ
  isGoingUp : Bool
  currentExercise : Option Exercise

/-- Field initializers plus the constructor of `ExerciseDetectionService`. -/
def ExerciseDetectionService.init : ExerciseDetectionService :=
  { poseLandmarker := false
    lastVideoTime := -1
    repCount := 0
    isGoingUp := false
    currentExercise := none }

/-- `setExercise(exercise)`. -/
def ExerciseDetectionService.setExercise (s : ExerciseDetectionService)
    (exercise : Exercise) : ExerciseDetectionService :=
  { s with currentExercise := some exercise, repCount := 0, isGoingUp := false }

/-- `getRepCount()`. -/
def ExerciseDetectionService.getRepCount (s : ExerciseDetectionService) : ℕ :=
  s.repCount

/-- JavaScript's `Math.atan2(y, x)`, in radians, with range `(-π, π]`
(ignoring signed zeros, which do not arise from real-valued landmarks). -/
def atan2 (y x : ℝ) : ℝ :=
  if 0 < x then arctan (y / x)
  else if x < 0 ∧ 0 ≤ y then arctan (y / x) + π
  else if x < 0 ∧ y < 0 then arctan (y / x) - π
  else if x = 0 ∧ 0 < y then π / 2
  else if x = 0 ∧ y < 0 then -(π / 2)
  else 0

/-- `calculateAngle(landmarks, p1, p2, p3)`: the absolute difference of the
`atan2` of ray `p2→p3` and the `atan2` of ray `p2→p1`, converted from radians
to degrees. The landmark array is modelled as a total function from indices
to positions (all accessed indices are in bounds in the source). -/
def calculateAngle (landmarks : ℕ → Landmark) (p1 p2 p3 : ℕ) : ℝ :=
  |atan2 ((landmarks p3).y - (landmarks p2).y) ((landmarks p3).x - (landmarks p2).x) -
      atan2 ((landmarks p1).y - (landmarks p2).y) ((landmarks p1).x - (landmarks p2).x)| *
    (180 / π)

/-- `updateRepCount(angle)`: the two-threshold hysteresis step.
`angle` is a JavaScript number that may be `NaN` (`none`). -/
def ExerciseDetectionService.updateRepCount (s : ExerciseDetectionService)
    (angle : Option ℝ) : ExerciseDetectionService :=
  match s.currentExercise with
  | none => s
  | some ex =>
    if s.isGoingUp = false ∧ jsLe angle ex.targetAngles.«end» then
      { s with isGoingUp := true }
    else if s.isGoingUp = true ∧ jsGe angle ex.targetAngles.start then
      { s with isGoingUp := false, repCount := s.repCount + 1 }
    else s

/-- Folding `updateRepCount` over a sequence of per-frame angles. -/
def runAngles (s : ExerciseDetectionService) (angles : List (Option ℝ)) :
    ExerciseDetectionService :=
  angles.foldl ExerciseDetectionService.updateRepCount s

/-- `processVideoFrame(videoElement, canvasElement, timestamp, onRepUpdate)`.
Inputs from the DOM and the vision model are explicit: `videoCurrentTime` is
`videoElement.currentTime`, `canvasCtxAvailable` is whether
`canvasElement.getContext("2d")` is non-null, and `detectedLandmarks` is
`results.landmarks` returned by `poseLandmarker.detectForVideo`. The second
component of the result is `some c` exactly when `onRepUpdate(c)` is invoked;
drawing calls are omitted. -/
def ExerciseDetectionService.processVideoFrame (s : ExerciseDetectionService)
    (videoCurrentTime : ℝ) (canvasCtxAvailable : Bool)
    (detectedLandmarks : List (ℕ → Landmark)) :
    ExerciseDetectionService × Option ℕ :=
  match s.poseLandmarker, s.currentExercise with
  | false, _ => (s, none)
  | true, none => (s, none)
  | true, some ex =>
    if canvasCtxAvailable = false then (s, none)
    else if s.lastVideoTime = videoCurrentTime then (s, none)
    else
      let s1 := { s with lastVideoTime := videoCurrentTime }
      match detectedLandmarks with
      | [] => (s1, none)
      | landmarks :: _ =>
        let angle := calculateAngle landmarks ex.joints.1 ex.joints.2.1 ex.joints.2.2
        let s2 := s1.updateRepCount (some angle)
        (s2, some s2.repCount)

/-- The exercise lookup of the `LiveDetection` component:
`EXERCISES.find((ex) => ex.id === exerciseSubType) || EXERCISES[0]`. -/
def lookupExercise (exerciseSubType : String) : Exercise :=
  (EXERCISES.find? fun ex => ex.id == exerciseSubType).getD EXERCISES.headI

/-- Landmark positions on which `calculateAngle` returns 270 degrees:
index 0 ↦ (-1, -1), index 1 ↦ (0, 0) (the vertex), index 2 ↦ (-1, 1). -/
def cexLandmarks : ℕ → Landmark := fun n =>
  if n = 0 then ⟨-1, -1⟩ else if n = 1 then ⟨0, 0⟩ else ⟨-1, 1⟩

/-- Driving the state machine through a list of full contraction/extension
cycles: each cycle feeds one contracted-phase angle then one extended-phase
angle to `updateRepCount`. -/
def runCycles (s : ExerciseDetectionService) (cycles : List (ℝ × ℝ)) :
    ExerciseDetectionService :=
  cycles.foldl (fun t c => (t.updateRepCount (some c.1)).updateRepCount (some c.2)) s

/-! ### Helper lemmas about the repetition state machine -/

lemma updateRepCount_goDown (s : ExerciseDetectionService) (ex : Exercise)
    (a : Option ℝ) (hex : s.currentExercise = some ex) (hup : s.isGoingUp = false)
    (h : jsLe a ex.targetAngles.«end») :
    s.updateRepCount a = { s with isGoingUp := true } := by
  rcases s with ⟨pl, lvt, rc, up, cur⟩
  cases cur with
  | none => simp at hex
  | some ex0 =>
    obtain rfl : ex0 = ex := by simpa using hex
    simp only at hup
    simp [ExerciseDetectionService.updateRepCount, hup, h]

lemma updateRepCount_countUp (s : ExerciseDetectionService) (ex : Exercise)
    (a : Option ℝ) (hex : s.currentExercise = some ex) (hup : s.isGoingUp = true)
    (h : jsGe a ex.targetAngles.start) :
    s.updateRepCount a = { s with isGoingUp := false, repCount := s.repCount + 1 } := by
  rcases s with ⟨pl, lvt, rc, up, cur⟩
  cases cur with
  | none => simp at hex
  | some ex0 =>
    obtain rfl : ex0 = ex := by simpa using hex
    simp only at hup
    simp [ExerciseDetectionService.updateRepCount, hup, h]

lemma updateRepCount_hold (s : ExerciseDetectionService) (ex : Exercise)
    (a : Option ℝ) (hex : s.currentExercise = some ex)
    (h1 : ¬ jsLe a ex.targetAngles.«end») (h2 : ¬ jsGe a ex.targetAngles.start) :
    s.updateRepCount a = s := by
  rcases s with ⟨pl, lvt, rc, up, cur⟩
  cases cur with
  | none => rfl
  | some ex0 =>
    obtain rfl : ex0 = ex := by simpa using hex
    simp [ExerciseDetectionService.updateRepCount, h1, h2]

lemma updateRepCount_currentExercise (s : ExerciseDetectionService) (a : Option ℝ) :
    (s.updateRepCount a).currentExercise = s.currentExercise := by
  rcases s with ⟨pl, lvt, rc, up, cur⟩
  cases cur with
  | none => rfl
  | some ex0 =>
    simp only [ExerciseDetectionService.updateRepCount]
    split_ifs <;> rfl

lemma updateRepCount_repCount_le (s : ExerciseDetectionService) (a : Option ℝ) :
    s.repCount ≤ (s.updateRepCount a).repCount := by
  rcases s with ⟨pl, lvt, rc, up, cur⟩
  cases cur with
  | none => exact le_refl _
  | some ex0 =>
    simp only [ExerciseDetectionService.updateRepCount]
    split_ifs <;> simp

lemma updateRepCount_repCount_le_succ (s : ExerciseDetectionService) (a : Option ℝ) :
    (s.updateRepCount a).repCount ≤ s.repCount + 1 := by
  rcases s with ⟨pl, lvt, rc, up, cur⟩
  cases cur with
  | none => exact Nat.le_succ _
  | some ex0 =>
    simp only [ExerciseDetectionService.updateRepCount]
    split_ifs <;> simp

lemma updateRepCount_incr_iff (s : ExerciseDetectionService) (ex : Exercise)
    (a : Option ℝ) (hex : s.currentExercise = some ex) :
    (s.updateRepCount a).repCount = s.repCount + 1 ↔
      s.isGoingUp = true ∧ jsGe a ex.targetAngles.start := by
  rcases s with ⟨pl, lvt, rc, up, cur⟩
  cases cur with
  | none => simp at hex
  | some ex0 =>
    obtain rfl : ex0 = ex := by simpa using hex
    simp only [ExerciseDetectionService.updateRepCount]
    split_ifs with h1 h2
    · constructor
      · intro h; simp at h
      · rintro ⟨hup, -⟩; exact absurd h1.1 (by simp [hup])
    · simpa using h2
    · constructor
      · intro h; simp at h
      · intro h; exact absurd h h2

lemma updateRepCount_incr_extended (s : ExerciseDetectionService) (a : Option ℝ)
    (h : (s.updateRepCount a).repCount = s.repCount + 1) :
    (s.updateRepCount a).isGoingUp = false := by
  rcases s with ⟨pl, lvt, rc, up, cur⟩
  cases cur with
  | none => simp [ExerciseDetectionService.updateRepCount] at h
  | some ex0 =>
    simp only [ExerciseDetectionService.updateRepCount] at h ⊢
    split_ifs at h ⊢ with h1 h2
    · simp at h
    · rfl
    · simp at h

lemma runAngles_repCount_le (angles : List (Option ℝ)) :
    ∀ s : ExerciseDetectionService, s.repCount ≤ (runAngles s angles).repCount := by
  induction angles with
  | nil => intro s; exact le_refl _
  | cons a rest ih =>
    intro s
    calc s.repCount ≤ (s.updateRepCount a).repCount := updateRepCount_repCount_le s a
      _ ≤ (runAngles (s.updateRepCount a) rest).repCount := ih _
      _ = (runAngles s (a :: rest)).repCount := rfl

lemma runAngles_hold (ex : Exercise) (angles : List ℝ)
    (ha : ∀ a ∈ angles, ex.targetAngles.«end» < a ∧ a < ex.targetAngles.start) :
    ∀ s : ExerciseDetectionService, s.currentExercise = some ex →
      runAngles s (angles.map some) = s := by
  induction angles with
  | nil => intro s _; rfl
  | cons a rest ih =>
    intro s hex
    obtain ⟨h1, h2⟩ := ha a (List.mem_cons_self a rest)
    have hstep : s.updateRepCount (some a) = s :=
      updateRepCount_hold s ex (some a) hex
        (by simp only [jsLe]; exact not_le.mpr h1)
        (by simp only [jsGe]; exact not_le.mpr h2)
    show runAngles (s.updateRepCount (some a)) (rest.map some) = s
    rw [hstep]
    exact ih (fun b hb => ha b (List.mem_cons_of_mem a hb)) s hex

lemma runCycles_spec (ex : Exercise) (cycles : List (ℝ × ℝ))
    (hcy : ∀ c ∈ cycles, c.1 ≤ ex.targetAngles.«end» ∧ ex.targetAngles.start ≤ c.2) :
    ∀ s : ExerciseDetectionService, s.currentExercise = some ex → s.isGoingUp = false →
      (runCycles s cycles).repCount = s.repCount + cycles.length ∧
      (runCycles s cycles).isGoingUp = false ∧
      (runCycles s cycles).currentExercise = some ex := by
  induction cycles with
  | nil => intro s hex hup; exact ⟨rfl, hup, hex⟩
  | cons c rest ih =>
    rintro ⟨pl, lvt, rc, up, cur⟩ hex hup
    obtain rfl : cur = some ex := hex
    obtain rfl : up = false := hup
    obtain ⟨hc1, hc2⟩ := hcy c (List.mem_cons_self c rest)
    have step1 : ExerciseDetectionService.updateRepCount ⟨pl, lvt, rc, false, some ex⟩ (some c.1) =
        ⟨pl, lvt, rc, true, some ex⟩ :=
      updateRepCount_goDown _ ex _ rfl rfl (by simp only [jsLe]; exact hc1)
    have step2 : ExerciseDetectionService.updateRepCount ⟨pl, lvt, rc, true, some ex⟩ (some c.2) =
        ⟨pl, lvt, rc + 1, false, some ex⟩ :=
      updateRepCount_countUp _ ex _ rfl rfl (by simp only [jsGe]; exact hc2)
    have hfold : runCycles ⟨pl, lvt, rc, false, some ex⟩ (c :: rest) =
        runCycles ⟨pl, lvt, rc + 1, false, some ex⟩ rest := by
      show runCycles ((ExerciseDetectionService.updateRepCount ⟨pl, lvt, rc, false, some ex⟩
          (some c.1)).updateRepCount (some c.2)) rest = _
      rw [step1, step2]
    rw [hfold]
    obtain ⟨ha, hb, hc⟩ := ih (fun b hb => hcy b (List.mem_cons_of_mem c hb))
      ⟨pl, lvt, rc + 1, false, some ex⟩ rfl rfl
    refine ⟨?_, hb, hc⟩
    simp only at ha
    rw [ha, List.length_cons]
    show rc + 1 + rest.length = rc + (rest.length + 1)
    omega

/-! ### Helper lemmas about the angle calculator -/

lemma arctan_nonpos_aux (u : ℝ) (h : u ≤ 0) : arctan u ≤ 0 := by
  have := Real.arctan_strictMono.monotone h
  simpa [Real.arctan_zero] using this

lemma arctan_pos_aux (u : ℝ) (h : 0 < u) : 0 < arctan u := by
  have := Real.arctan_strictMono h
  simpa [Real.arctan_zero] using this

/-- The embedded `Math.atan2` has range `(-π, π]`. -/
lemma atan2_bounds (y x : ℝ) : -π < atan2 y x ∧ atan2 y x ≤ π := by
  have hpi := Real.pi_pos
  have h1 := Real.arctan_lt_pi_div_two (y / x)
  have h2 := Real.neg_pi_div_two_lt_arctan (y / x)
  unfold atan2
  split_ifs with hx hxy hxy2 hy hy2
  · exact ⟨by linarith, by linarith⟩
  · have hdiv : y / x ≤ 0 := by
      rw [div_nonpos_iff]; left; exact ⟨hxy.2, hxy.1.le⟩
    have h3 := arctan_nonpos_aux _ hdiv
    exact ⟨by linarith, by linarith⟩
  · have hdiv : 0 < y / x := by
      rw [div_pos_iff]; right; exact ⟨hxy2.2, hxy2.1⟩
    have h3 := arctan_pos_aux _ hdiv
    exact ⟨by linarith, by linarith⟩
  · exact ⟨by linarith, by linarith⟩
  · exact ⟨by linarith, by linarith⟩
  · exact ⟨by linarith, by linarith⟩

lemma calculateAngle_nonneg (lms : ℕ → Landmark) (p1 p2 p3 : ℕ) :
    0 ≤ calculateAngle lms p1 p2 p3 := by
  unfold calculateAngle
  positivity

lemma calculateAngle_lt_360 (lms : ℕ → Landmark) (p1 p2 p3 : ℕ) :
    calculateAngle lms p1 p2 p3 < 360 := by
  have hpi := Real.pi_pos
  have hne := Real.pi_ne_zero
  obtain ⟨ha1, ha2⟩ := atan2_bounds ((lms p3).y - (lms p2).y) ((lms p3).x - (lms p2).x)
  obtain ⟨hb1, hb2⟩ := atan2_bounds ((lms p1).y - (lms p2).y) ((lms p1).x - (lms p2).x)
  unfold calculateAngle
  have habs : |atan2 ((lms p3).y - (lms p2).y) ((lms p3).x - (lms p2).x) -
      atan2 ((lms p1).y - (lms p2).y) ((lms p1).x - (lms p2).x)| < 2 * π :=
    abs_sub_lt_iff.mpr ⟨by linarith, by linarith⟩
  have h180 : (0:ℝ) < 180 / π := by positivity
  calc |atan2 ((lms p3).y - (lms p2).y) ((lms p3).x - (lms p2).x) -
      atan2 ((lms p1).y - (lms p2).y) ((lms p1).x - (lms p2).x)| * (180 / π)
      < (2 * π) * (180 / π) := mul_lt_mul_of_pos_right habs h180
    _ = 360 := by field_simp; ring

lemma calculateAngle_swap (lms : ℕ → Landmark) (p1 p2 p3 : ℕ) :
    calculateAngle lms p1 p2 p3 = calculateAngle lms p3 p2 p1 := by
  unfold calculateAngle
  rw [abs_sub_comm]

lemma atan2_one_neg_one : atan2 1 (-1) = 3 * π / 4 := by
  unfold atan2
  rw [if_neg (by norm_num), if_pos (show (-1:ℝ) < 0 ∧ (0:ℝ) ≤ 1 by norm_num)]
  rw [show (1:ℝ) / (-1) = -1 by norm_num, Real.arctan_neg, Real.arctan_one]
  ring

lemma atan2_neg_one_neg_one : atan2 (-1) (-1) = -(3 * π / 4) := by
  unfold atan2
  rw [if_neg (by norm_num), if_neg (by norm_num),
    if_pos (show (-1:ℝ) < 0 ∧ (-1:ℝ) < 0 by norm_num)]
  rw [show (-1:ℝ) / (-1) = 1 by norm_num, Real.arctan_one]
  ring

/-- On `cexLandmarks` the angle calculator returns exactly 270 degrees. -/
lemma calculateAngle_cex : calculateAngle cexLandmarks 0 1 2 = 270 := by
  have hpi := Real.pi_pos
  have hne := Real.pi_ne_zero
  unfold calculateAngle cexLandmarks
  norm_num
  rw [atan2_one_neg_one, atan2_neg_one_neg_one,
    show 3 * π / 4 - -(3 * π / 4) = 3 * π / 2 by ring,
    abs_of_nonneg (by positivity)]
  field_simp
  ring

/-! ### Claim theorems -/

/-- C1: for the bicep-curl exercise (`start = 160`, `end = 60`), feeding the
angle sequence `[170, 150, 100, 55, 80, 165]` into the repetition state
machine from the freshly configured initial state (phase Extended, repCount 0,
no cooldown exists in the code) yields `repCount = 1`; the phase stays
Extended (`isGoingUp = false`) through the frames 170, 150 and 100, becomes
Contracted (`isGoingUp = true`) exactly at the frame with angle 55, stays
Contracted at 80 with no rep counted yet, and the counted transition back to
Extended happens exactly at the frame with angle 165. -/
theorem C1_bicep_curl_scenario :
    (runAngles (ExerciseDetectionService.init.setExercise bicepCurl)
        [some 170]).isGoingUp = false ∧
    (runAngles (ExerciseDetectionService.init.setExercise bicepCurl)
        [some 170, some 150]).isGoingUp = false ∧
    (runAngles (ExerciseDetectionService.init.setExercise bicepCurl)
        [some 170, some 150, some 100]).isGoingUp = false ∧
    (runAngles (ExerciseDetectionService.init.setExercise bicepCurl)
        [some 170, some 150, some 100]).repCount = 0 ∧
    (runAngles (ExerciseDetectionService.init.setExercise bicepCurl)
        [some 170, some 150, some 100, some 55]).isGoingUp = true ∧
    (runAngles (ExerciseDetectionService.init.setExercise bicepCurl)
        [some 170, some 150, some 100, some 55]).repCount = 0 ∧
    (runAngles (ExerciseDetectionService.init.setExercise bicepCurl)
        [some 170, some 150, some 100, some 55, some 80]).isGoingUp = true ∧
    (runAngles (ExerciseDetectionService.init.setExercise bicepCurl)
        [some 170, some 150, some 100, some 55, some 80]).repCount = 0 ∧
    (runAngles (ExerciseDetectionService.init.setExercise bicepCurl)
        [some 170, some 150, some 100, some 55, some 80, some 165]).isGoingUp = false ∧
    (runAngles (ExerciseDetectionService.init.setExercise bicepCurl)
        [some 170, some 150, some 100, some 55, some 80, some 165]).repCount = 1 := by
  norm_num [runAngles, List.foldl, ExerciseDetectionService.updateRepCount,
    ExerciseDetectionService.setExercise, ExerciseDetectionService.init, jsLe, jsGe, bicepCurl]

/-- C2: with an exercise configured, `repCount` is monotonically
non-decreasing over any sequence of angle updates; one update increases it by
at most 1; it increases by exactly 1 precisely when the phase is Contracted
(`isGoingUp = true`) and the angle is at least the start threshold; and after
a counted transition the phase is Extended again, so the same transition
cannot be counted twice. -/
theorem C2_repCount_monotone (s : ExerciseDetectionService) (ex : Exercise)
    (hex : s.currentExercise = some ex) (angle : Option ℝ) :
    (∀ angles : List (Option ℝ), s.repCount ≤ (runAngles s angles).repCount) ∧
    s.repCount ≤ (s.updateRepCount angle).repCount ∧
    (s.updateRepCount angle).repCount ≤ s.repCount + 1 ∧
    ((s.updateRepCount angle).repCount = s.repCount + 1 ↔
      s.isGoingUp = true ∧ jsGe angle ex.targetAngles.start) ∧
    ((s.updateRepCount angle).repCount = s.repCount + 1 →
      (s.updateRepCount angle).isGoingUp = false) :=
  ⟨fun angles => runAngles_repCount_le angles s,
   updateRepCount_repCount_le s angle,
   updateRepCount_repCount_le_succ s angle,
   updateRepCount_incr_iff s ex angle hex,
   updateRepCount_incr_extended s angle⟩

/-- Witness for C2 at the configured bicep-curl machine and angle 165. -/
theorem C2_witness :
    (ExerciseDetectionService.init.setExercise bicepCurl).currentExercise = some bicepCurl ∧
    ((∀ angles : List (Option ℝ),
        (ExerciseDetectionService.init.setExercise bicepCurl).repCount ≤
          (runAngles (ExerciseDetectionService.init.setExercise bicepCurl) angles).repCount) ∧
      (ExerciseDetectionService.init.setExercise bicepCurl).repCount ≤
        ((ExerciseDetectionService.init.setExercise bicepCurl).updateRepCount
          (some 165)).repCount ∧
      ((ExerciseDetectionService.init.setExercise bicepCurl).updateRepCount
          (some 165)).repCount ≤
        (ExerciseDetectionService.init.setExercise bicepCurl).repCount + 1 ∧
      (((ExerciseDetectionService.init.setExercise bicepCurl).updateRepCount
            (some 165)).repCount =
          (ExerciseDetectionService.init.setExercise bicepCurl).repCount + 1 ↔
        (ExerciseDetectionService.init.setExercise bicepCurl).isGoingUp = true ∧
          jsGe (some 165) bicepCurl.targetAngles.start) ∧
      (((ExerciseDetectionService.init.setExercise bicepCurl).updateRepCount
            (some 165)).repCount =
          (ExerciseDetectionService.init.setExercise bicepCurl).repCount + 1 →
        ((ExerciseDetectionService.init.setExercise bicepCurl).updateRepCount
          (some 165)).isGoingUp = false)) :=
  ⟨rfl, C2_repCount_monotone (ExerciseDetectionService.init.setExercise bicepCurl)
    bicepCurl rfl (some 165)⟩

/-- C3: for any exercise whose start threshold exceeds its end threshold and
any list of N full contraction/extension cycles (each an angle at most the end
threshold followed by an angle at least the start threshold), running from the
freshly configured initial state yields `repCount = N` exactly (there is no
cooldown in the code). -/
theorem C3_n_cycles_exact (ex : Exercise) (cycles : List (ℝ × ℝ))
    (hth : ex.targetAngles.«end» < ex.targetAngles.start)
    (hcy : ∀ c ∈ cycles, c.1 ≤ ex.targetAngles.«end» ∧ ex.targetAngles.start ≤ c.2) :
    (runCycles (ExerciseDetectionService.init.setExercise ex) cycles).repCount =
      cycles.length := by
  obtain ⟨h, -, -⟩ := runCycles_spec ex cycles hcy
    (ExerciseDetectionService.init.setExercise ex) rfl rfl
  rw [h]
  show 0 + cycles.length = cycles.length
  omega

/-- Witness for C3: two bicep-curl cycles count exactly 2 reps. -/
theorem C3_witness :
    bicepCurl.targetAngles.«end» < bicepCurl.targetAngles.start ∧
    (∀ c ∈ ([(55, 165), (50, 170)] : List (ℝ × ℝ)),
      c.1 ≤ bicepCurl.targetAngles.«end» ∧ bicepCurl.targetAngles.start ≤ c.2) ∧
    (runCycles (ExerciseDetectionService.init.setExercise bicepCurl)
        ([(55, 165), (50, 170)] : List (ℝ × ℝ))).repCount = 2 := by
  have h1 : bicepCurl.targetAngles.«end» < bicepCurl.targetAngles.start := by
    norm_num [bicepCurl]
  have h2 : ∀ c ∈ ([(55, 165), (50, 170)] : List (ℝ × ℝ)),
      c.1 ≤ bicepCurl.targetAngles.«end» ∧ bicepCurl.targetAngles.start ≤ c.2 := by
    intro c hc
    simp only [List.mem_cons, List.not_mem_nil, or_false] at hc
    rcases hc with rfl | rfl
    · exact ⟨by norm_num [bicepCurl], by norm_num [bicepCurl]⟩
    · exact ⟨by norm_num [bicepCurl], by norm_num [bicepCurl]⟩
  refine ⟨h1, h2, ?_⟩
  have h := C3_n_cycles_exact bicepCurl ([(55, 165), (50, 170)] : List (ℝ × ℝ)) h1 h2
  simpa using h

/-- C4 counterexample: the claim says the returned angle always lies in
[0, 180], but on `cexLandmarks` (vertex at the origin, outer points at
(-1, -1) and (-1, 1)) the calculator returns 270. -/
theorem C4_counterexample : 180 < calculateAngle cexLandmarks 0 1 2 := by
  rw [calculateAngle_cex]
  norm_num

/-- C4 (amended): the calculator returns the absolute difference of the
`atan2` of the two rays converted from radians to degrees, and the returned
value lies in [0, 360) — not [0, 180] as claimed. -/
theorem C4_amended_range (landmarks : ℕ → Landmark) (p1 p2 p3 : ℕ) :
    calculateAngle landmarks p1 p2 p3 =
      |atan2 ((landmarks p3).y - (landmarks p2).y) ((landmarks p3).x - (landmarks p2).x) -
          atan2 ((landmarks p1).y - (landmarks p2).y) ((landmarks p1).x - (landmarks p2).x)| *
        (180 / π) ∧
    0 ≤ calculateAngle landmarks p1 p2 p3 ∧ calculateAngle landmarks p1 p2 p3 < 360 :=
  ⟨rfl, calculateAngle_nonneg landmarks p1 p2 p3, calculateAngle_lt_360 landmarks p1 p2 p3⟩

/-- C5: `setExercise` resets `repCount` to 0 and the phase to Extended
(`isGoingUp = false`) and installs the new exercise, regardless of prior
state. -/
theorem C5_setExercise_resets (s : ExerciseDetectionService) (exercise : Exercise) :
    (s.setExercise exercise).repCount = 0 ∧
    (s.setExercise exercise).isGoingUp = false ∧
    (s.setExercise exercise).currentExercise = some exercise :=
  ⟨rfl, rfl, rfl⟩

/-- C6: an update with a NaN/unavailable angle (modelled as `none`, for which
every JavaScript comparison is false) is a complete no-op on the state: phase
and repCount are unchanged and no error is raised. -/
theorem C6_nan_angle_noop (s : ExerciseDetectionService) :
    s.updateRepCount none = s := by
  rcases s with ⟨pl, lvt, rc, up, cur⟩
  cases cur with
  | none => rfl
  | some ex => simp [ExerciseDetectionService.updateRepCount, jsLe, jsGe]

/-- C7: for an exercise with `end < start` configured in the machine, any
sequence of angles lying strictly inside the open interval (end, start)
changes neither `repCount` nor the phase, from any state. -/
theorem C7_within_thresholds_no_change (ex : Exercise) (s : ExerciseDetectionService)
    (angles : List ℝ)
    (hth : ex.targetAngles.«end» < ex.targetAngles.start)
    (hex : s.currentExercise = some ex)
    (ha : ∀ a ∈ angles, ex.targetAngles.«end» < a ∧ a < ex.targetAngles.start) :
    (runAngles s (angles.map some)).repCount = s.repCount ∧
    (runAngles s (angles.map some)).isGoingUp = s.isGoingUp := by
  rw [runAngles_hold ex angles ha s hex]
  exact ⟨rfl, rfl⟩

/-- Witness for C7: the bicep-curl machine holds under angles 100, 80, 120. -/
theorem C7_witness :
    bicepCurl.targetAngles.«end» < bicepCurl.targetAngles.start ∧
    (ExerciseDetectionService.init.setExercise bicepCurl).currentExercise = some bicepCurl ∧
    (∀ a ∈ ([100, 80, 120] : List ℝ),
      bicepCurl.targetAngles.«end» < a ∧ a < bicepCurl.targetAngles.start) ∧
    ((runAngles (ExerciseDetectionService.init.setExercise bicepCurl)
          (([100, 80, 120] : List ℝ).map some)).repCount =
        (ExerciseDetectionService.init.setExercise bicepCurl).repCount ∧
      (runAngles (ExerciseDetectionService.init.setExercise bicepCurl)
          (([100, 80, 120] : List ℝ).map some)).isGoingUp =
        (ExerciseDetectionService.init.setExercise bicepCurl).isGoingUp) := by
  have h1 : bicepCurl.targetAngles.«end» < bicepCurl.targetAngles.start := by
    norm_num [bicepCurl]
  have h3 : ∀ a ∈ ([100, 80, 120] : List ℝ),
      bicepCurl.targetAngles.«end» < a ∧ a < bicepCurl.targetAngles.start := by
    intro a hc
    simp only [List.mem_cons, List.not_mem_nil, or_false] at hc
    rcases hc with rfl | rfl | rfl
    · exact ⟨by norm_num [bicepCurl], by norm_num [bicepCurl]⟩
    · exact ⟨by norm_num [bicepCurl], by norm_num [bicepCurl]⟩
    · exact ⟨by norm_num [bicepCurl], by norm_num [bicepCurl]⟩
  exact ⟨h1, rfl, h3, C7_within_thresholds_no_change bicepCurl
    (ExerciseDetectionService.init.setExercise bicepCurl) ([100, 80, 120] : List ℝ)
    h1 rfl h3⟩

/-- C8: exercise ids in the catalog are unique; looking up an id that is
present returns that entry, and looking up an unknown id falls back to the
first catalog entry (the bicep curl) rather than erroring. -/
theorem C8_lookup_found_or_default :
    (EXERCISES.map Exercise.id).Nodup ∧
    (∀ exerciseSubType : String, ∀ ex ∈ EXERCISES, ex.id = exerciseSubType →
      lookupExercise exerciseSubType = ex) ∧
    (∀ exerciseSubType : String, (∀ ex ∈ EXERCISES, ex.id ≠ exerciseSubType) →
      lookupExercise exerciseSubType = EXERCISES.headI) ∧
    EXERCISES.headI = bicepCurl := by
  refine ⟨by decide, ?_, ?_, rfl⟩
  · intro t ex hmem hid
    subst hid
    simp only [EXERCISES, List.mem_cons, List.not_mem_nil, or_false] at hmem
    rcases hmem with rfl | rfl | rfl
    · rfl
    · rfl
    · rfl
  · intro t h
    have hb : bicepCurl.id ≠ t := h bicepCurl (by simp [EXERCISES])
    have hs : squat.id ≠ t := h squat (by simp [EXERCISES])
    have hp : pushup.id ≠ t := h pushup (by simp [EXERCISES])
    simp only [lookupExercise, EXERCISES]
    rw [List.find?_cons_of_neg _ (by simpa using hb),
      List.find?_cons_of_neg _ (by simpa using hs),
      List.find?_cons_of_neg _ (by simpa using hp)]
    rfl

/-- Witness for C8: "squat" resolves to the squat entry and an unknown id
falls back to the head of the catalog. -/
theorem C8_witness :
    (squat ∈ EXERCISES ∧ lookupExercise "squat" = squat) ∧
    ((∀ ex ∈ EXERCISES, ex.id ≠ "unknown-exercise") ∧
      lookupExercise "unknown-exercise" = EXERCISES.headI) := by
  have hmem : squat ∈ EXERCISES := by simp [EXERCISES]
  have hall : ∀ ex ∈ EXERCISES, ex.id ≠ "unknown-exercise" := by decide
  exact ⟨⟨hmem, C8_lookup_found_or_default.2.1 "squat" squat hmem rfl⟩,
    ⟨hall, C8_lookup_found_or_default.2.2.1 "unknown-exercise" hall⟩⟩

/-- C9: if the pose landmarker has not been initialized or no exercise has
been selected, `processVideoFrame` returns without invoking the `onRepUpdate`
callback (second component `none`) and without mutating any state —
`repCount`, `isGoingUp` and `lastVideoTime` are all unchanged. -/
theorem C9_early_return (s : ExerciseDetectionService) (videoCurrentTime : ℝ)
    (canvasCtxAvailable : Bool) (detectedLandmarks : List (ℕ → Landmark))
    (h : s.poseLandmarker = false ∨ s.currentExercise = none) :
    s.processVideoFrame videoCurrentTime canvasCtxAvailable detectedLandmarks =
      (s, none) := by
  rcases s with ⟨pl, lvt, rc, up, cur⟩
  cases pl
  · rfl
  · cases cur with
    | none => rfl
    | some ex => rcases h with h | h <;> simp at h

/-- Witness for C9 at the freshly constructed service. -/
theorem C9_witness :
    (ExerciseDetectionService.init.poseLandmarker = false ∨
      ExerciseDetectionService.init.currentExercise = none) ∧
    ExerciseDetectionService.init.processVideoFrame 0 true [] =
      (ExerciseDetectionService.init, none) :=
  ⟨Or.inl rfl, C9_early_return ExerciseDetectionService.init 0 true [] (Or.inl rfl)⟩

/-- C10: for non-coincident joint positions the calculator's result is
non-negative and strictly below 360 degrees; the two `atan2` values each lie
in (-π, π]; some inputs produce a result strictly above 180 degrees; and the
result is unconditionally symmetric under swapping the outer points. -/
theorem C10_range_and_symmetry :
    (∀ (lms : ℕ → Landmark) (p1 p2 p3 : ℕ),
        lms p1 ≠ lms p2 → lms p2 ≠ lms p3 → lms p1 ≠ lms p3 →
        0 ≤ calculateAngle lms p1 p2 p3 ∧ calculateAngle lms p1 p2 p3 < 360) ∧
    (∀ y x : ℝ, -π < atan2 y x ∧ atan2 y x ≤ π) ∧
    (∃ (lms : ℕ → Landmark) (p1 p2 p3 : ℕ),
        lms p1 ≠ lms p2 ∧ lms p2 ≠ lms p3 ∧ lms p1 ≠ lms p3 ∧
        180 < calculateAngle lms p1 p2 p3) ∧
    (∀ (lms : ℕ → Landmark) (p1 p2 p3 : ℕ),
        calculateAngle lms p1 p2 p3 = calculateAngle lms p3 p2 p1) := by
  refine ⟨fun lms p1 p2 p3 _ _ _ =>
      ⟨calculateAngle_nonneg lms p1 p2 p3, calculateAngle_lt_360 lms p1 p2 p3⟩,
    atan2_bounds, ⟨cexLandmarks, 0, 1, 2, ?_, ?_, ?_, ?_⟩, calculateAngle_swap⟩
  · intro hEq; norm_num [cexLandmarks, Landmark.mk.injEq] at hEq
  · intro hEq; norm_num [cexLandmarks, Landmark.mk.injEq] at hEq
  · intro hEq; norm_num [cexLandmarks, Landmark.mk.injEq] at hEq
  · rw [calculateAngle_cex]; norm_num

/-- Witness for C10 at the concrete landmark set `cexLandmarks`. -/
theorem C10_witness :
    cexLandmarks 0 ≠ cexLandmarks 1 ∧ cexLandmarks 1 ≠ cexLandmarks 2 ∧
    cexLandmarks 0 ≠ cexLandmarks 2 ∧
    (0 ≤ calculateAngle cexLandmarks 0 1 2 ∧ calculateAngle cexLandmarks 0 1 2 < 360) := by
  have h01 : cexLandmarks 0 ≠ cexLandmarks 1 := by
    intro hEq; norm_num [cexLandmarks, Landmark.mk.injEq] at hEq
  have h12 : cexLandmarks 1 ≠ cexLandmarks 2 := by
    intro hEq; norm_num [cexLandmarks, Landmark.mk.injEq] at hEq
  have h02 : cexLandmarks 0 ≠ cexLandmarks 2 := by
    intro hEq; norm_num [cexLandmarks, Landmark.mk.injEq] at hEq
  exact ⟨h01, h12, h02, C10_range_and_symmetry.1 cexLandmarks 0 1 2 h01 h12 h02⟩

end HealthyWorld
